import Mathlib

/-!
Verification of the EAT framework core (`eat/discovery.py`, `eat/security.py`,
`eat/mcp_client.py`) against its natural-language specification.

The Python code is shallowly embedded: JSON values become the inductive `JVal`
(Python truthiness, `dict.get`, the `in` operator and iteration are modelled
explicitly); exceptions become `Except PyExn`; network and external-library
calls (`aiohttp`, `jwt`, `json.loads`) become explicit environment records of
oracles, so each control path of the source is a path of the embedding.
`hashlib.sha256` is embedded as a full FIPS 180-4 SHA-256 over byte lists.
-/

/-- A decoded JSON value, as produced by Python's `json.loads`: objects are
association lists in key order, numbers are integers (the catalogs under test
use only integral numbers). -/
inductive JVal where
  | null
  | bool (b : Bool)
  | num (n : Int)
  | str (s : String)
  | arr (xs : List JVal)
  | obj (kvs : List (String × JVal))

/-- Python truthiness (`bool(x)`) of a decoded JSON value: `None`, `False`,
`0`, `""`, `[]`, `{\x7d` are falsy, everything else truthy. -/
def JVal.truthy : JVal → Bool
  | .null => false
  | .bool b => b
  | .num n => n != 0
  | .str s => !s.isEmpty
  | .arr xs => !xs.isEmpty
  | .obj kvs => !kvs.isEmpty

/-- Key lookup in a decoded JSON object (`d[k]` when present). -/
def objFind? (kvs : List (String × JVal)) (k : String) : Option JVal :=
  (kvs.find? (fun p => p.1 == k)).map (fun p => p.2)

/-- Whether a key is present in a decoded JSON object (`k in d`). -/
def hasKey (kvs : List (String × JVal)) (k : String) : Bool :=
  (kvs.find? (fun p => p.1 == k)).isSome

/-- The Python exceptions the embedded code can raise.  The spec's abstract
names map onto these: `NotFetchedError` is the `RuntimeError` raised by
`Catalog.find`, `ConfigurationError` the `ValueError` raised by `Tool.call`,
`KeyResolutionError` the `SecurityError` of `security.py`, and
`RemoteToolError` the `MCPError` of `mcp_client.py`. -/
inductive PyExn where
  | valueError (msg : String)
  | runtimeError (msg : String)
  | securityError (msg : String)
  | mcpError (msg : String)
  | clientError (msg : String)   -- aiohttp.ClientError (connection / HTTP status)
  | typeError
  | attributeError
  | keyError
  | jsonError                    -- json.JSONDecodeError

/-- `str(e)` of an exception, as interpolated into wrapper messages. -/
def pyExnStr : PyExn → String
  | .valueError m => m
  | .runtimeError m => m
  | .securityError m => m
  | .mcpError m => m
  | .clientError m => m
  | .typeError => "TypeError"
  | .attributeError => "AttributeError"
  | .keyError => "KeyError"
  | .jsonError => "JSONDecodeError"

/-- `d.get(k, default)` on a decoded JSON value: returns the stored value when
the key is present (even a falsy one), the default otherwise; calling `.get`
on a non-dict raises `AttributeError`. -/
def pyGet (v : JVal) (k : String) (d : JVal) : Except PyExn JVal :=
  match v with
  | .obj kvs => .ok ((objFind? kvs k).getD d)
  | _ => .error .attributeError

/-- `d[k]` subscription on a decoded JSON value with a string key. -/
def pySubscript (v : JVal) (k : String) : Except PyExn JVal :=
  match v with
  | .obj kvs =>
    match objFind? kvs k with
    | some x => .ok x
    | none => .error .keyError
  | _ => .error .typeError

/-- Splitting a character list on a non-empty separator, with a structural
fuel bound so the definition reduces inside the kernel. -/
def splitOnAux (sep : List Char) : Nat → List Char → List Char → List (List Char)
  | _, acc, [] => [acc.reverse]
  | 0, acc, l => [acc.reverse ++ l]
  | fuel + 1, acc, c :: cs =>
    if sep.isPrefixOf (c :: cs) then
      acc.reverse :: splitOnAux sep fuel [] ((c :: cs).drop sep.length)
    else splitOnAux sep fuel (c :: acc) cs

/-- `s.split(sep)` / `str.splitOn`: the pieces of `s` between occurrences of
`sep` (the whole string when the separator is empty). -/
def strSplitOn (s sep : String) : List String :=
  if sep.isEmpty then [s]
  else (splitOnAux sep.toList s.toList.length [] s.toList).map String.mk

/-- `s.endswith(suffix)`. -/
def strEndsWith (s suffix : String) : Bool :=
  suffix.toList.isSuffixOf s.toList

/-- Substring test (`needle in hay` for Python strings). -/
def strContains (hay needle : String) : Bool :=
  needle.isEmpty || (strSplitOn hay needle).length != 1

/-- The Python `in` operator with a string left operand: key membership for
dicts, `==`-membership for lists (a string only equals a string), substring
for strings, `TypeError` otherwise. -/
def pyContainsStr (s : String) (container : JVal) : Except PyExn Bool :=
  match container with
  | .obj kvs => .ok (hasKey kvs s)
  | .arr xs => .ok (xs.any (fun v => match v with | .str t => t == s | _ => false))
  | .str t => .ok (strContains t s)
  | _ => .error .typeError

/-- Python `==` between a `bool` and a decoded JSON value (used by the
`has_examples` filter): `True == 1` and `False == 0` hold. -/
def pyEqBool (b : Bool) (v : JVal) : Bool :=
  match v with
  | .bool c => b == c
  | .num n => (if b then (1 : Int) else 0) == n
  | _ => false

/-- `str(x)` rendering of a decoded JSON value, as interpolated into f-strings.
List and dict reprs are abbreviated (no claim under verification inspects
them). -/
def pyStrOf : JVal → String
  | .str s => s
  | .num n => toString n
  | .bool b => if b then "True" else "False"
  | .null => "None"
  | .arr _ => "[...]"
  | .obj _ => "\x7b...\x7d"

/-- Iterating a decoded JSON value (`for x in v`): a list yields its elements,
a string its one-character substrings, a dict its keys; other values raise
`TypeError`. -/
def pyIterElems (v : JVal) : Except PyExn (List JVal) :=
  match v with
  | .arr xs => .ok xs
  | .str s => .ok (s.toList.map (fun ch => JVal.str (String.mk [ch])))
  | .obj kvs => .ok (kvs.map (fun p => JVal.str p.1))
  | _ => .error .typeError

/-! ## SHA-256 (FIPS 180-4), the model of `hashlib.sha256(content).hexdigest()` -/

/-- Truncation to a 32-bit word. -/
def w32 (n : Nat) : Nat := n % 4294967296

/-- 32-bit modular addition. -/
def add32 (a b : Nat) : Nat := (a + b) % 4294967296

/-- 32-bit right rotation. -/
def rightRot (n x : Nat) : Nat := ((x >>> n) ||| (x <<< (32 - n))) % 4294967296

/-- Bitwise complement within 32 bits. -/
def not32 (x : Nat) : Nat := x ^^^ 4294967295

/-- SHA-256 `Ch` function. -/
def shaCh (x y z : Nat) : Nat := (x &&& y) ^^^ (not32 x &&& z)

/-- SHA-256 `Maj` function. -/
def shaMaj (x y z : Nat) : Nat := (x &&& y) ^^^ (x &&& z) ^^^ (y &&& z)

/-- SHA-256 big sigma 0. -/
def sigmaBig0 (x : Nat) : Nat := rightRot 2 x ^^^ rightRot 13 x ^^^ rightRot 22 x

/-- SHA-256 big sigma 1. -/
def sigmaBig1 (x : Nat) : Nat := rightRot 6 x ^^^ rightRot 11 x ^^^ rightRot 25 x

/-- SHA-256 small sigma 0. -/
def sigmaSmall0 (x : Nat) : Nat := rightRot 7 x ^^^ rightRot 18 x ^^^ (x >>> 3)

/-- SHA-256 small sigma 1. -/
def sigmaSmall1 (x : Nat) : Nat := rightRot 17 x ^^^ rightRot 19 x ^^^ (x >>> 10)

/-- The 64 SHA-256 round constants. -/
def shaK : List Nat :=
  [1116352408, 1899447441, 3049323471, 3921009573,
   961987163, 1508970993, 2453635748, 2870763221,
   3624381080, 310598401, 607225278, 1426881987,
   1925078388, 2162078206, 2614888103, 3248222580,
   3835390401, 4022224774, 264347078, 604807628,
   770255983, 1249150122, 1555081692, 1996064986,
   2554220882, 2821834349, 2952996808, 3210313671,
   3336571891, 3584528711, 113926993, 338241895,
   666307205, 773529912, 1294757372, 1396182291,
   1695183700, 1986661051, 2177026350, 2456956037,
   2730485921, 2820302411, 3259730800, 3345764771,
   3516065817, 3600352804, 4094571909, 275423344,
   430227734, 506948616, 659060556, 883997877,
   958139571, 1322822218, 1537002063, 1747873779,
   1955562222, 2024104815, 2227730452, 2361852424,
   2428436474, 2756734187, 3204031479, 3329325298]

/-- The SHA-256 initial hash value. -/
def shaH0 : List Nat :=
  [1779033703, 3144134277, 1013904242, 2773480762,
   1359893119, 2600822924, 528734635, 1541459225]

/-- Big-endian 64-bit encoding of the message bit length. -/
def be64 (n : Nat) : List Nat :=
  [(n >>> 56) % 256, (n >>> 48) % 256, (n >>> 40) % 256, (n >>> 32) % 256,
   (n >>> 24) % 256, (n >>> 16) % 256, (n >>> 8) % 256, n % 256]

/-- SHA-256 message padding: append `0x80`, zeros to 56 mod 64, and the
big-endian bit length. -/
def shaPad (msg : List Nat) : List Nat :=
  msg ++ [0x80] ++ List.replicate ((119 - msg.length % 64) % 64) 0 ++ be64 (8 * msg.length)

/-- Split a byte list into 64-byte blocks, with a structural fuel bound so the
definition reduces inside the kernel; the fuel is sized so it never runs out. -/
def chunks64Fuel : Nat → List Nat → List (List Nat)
  | 0, _ => []
  | _, [] => []
  | fuel + 1, l => l.take 64 :: chunks64Fuel fuel (l.drop 64)

/-- Split a byte list into 64-byte blocks. -/
def chunks64 (l : List Nat) : List (List Nat) :=
  chunks64Fuel l.length l

/-- Pack big-endian byte quadruples into 32-bit words. -/
def bytesToWords : List Nat → List Nat
  | b0 :: b1 :: b2 :: b3 :: rest =>
    (((b0 * 256 + b1) * 256 + b2) * 256 + b3) :: bytesToWords rest
  | _ => []

/-- Extend the 16 block words to the 64-entry message schedule. -/
def buildSchedule (ws : List Nat) : List Nat :=
  (List.range 48).foldl
    (fun w _ =>
      let n := w.length
      w ++ [add32 (add32 (sigmaSmall1 (w.getD (n - 2) 0)) (w.getD (n - 7) 0))
                  (add32 (sigmaSmall0 (w.getD (n - 15) 0)) (w.getD (n - 16) 0))])
    ws

/-- One SHA-256 compression round on the eight working variables. -/
def roundStep (st : List Nat) (k wt : Nat) : List Nat :=
  match st with
  | [a, b, c, d, e, f, g, h] =>
    let t1 := add32 (add32 (add32 h (sigmaBig1 e)) (add32 (shaCh e f g) k)) wt
    let t2 := add32 (sigmaBig0 a) (shaMaj a b c)
    [add32 t1 t2, a, b, c, add32 d t1, e, f, g]
  | _ => st

/-- Compress one 64-byte block into the running hash state. -/
def compressBlock (h : List Nat) (block : List Nat) : List Nat :=
  let w := buildSchedule (bytesToWords block)
  let fin := (List.range 64).foldl (fun st t => roundStep st (shaK.getD t 0) (w.getD t 0)) h
  List.zipWith add32 h fin

/-- The eight 32-bit words of the SHA-256 digest of a byte list. -/
def sha256Words (msg : List Nat) : List Nat :=
  (chunks64 (shaPad msg)).foldl compressBlock shaH0

/-- A lowercase hex digit character, from its value: `0`–`9` then `a`–`f`. -/
def hexDigit (n : Nat) : Char :=
  if n < 10 then Char.ofNat (48 + n) else Char.ofNat (87 + n)

/-- Lowercase hex rendering of one 32-bit word, eight digits. -/
def word32Hex (n : Nat) : List Char :=
  [hexDigit ((n >>> 28) % 16), hexDigit ((n >>> 24) % 16), hexDigit ((n >>> 20) % 16),
   hexDigit ((n >>> 16) % 16), hexDigit ((n >>> 12) % 16), hexDigit ((n >>> 8) % 16),
   hexDigit ((n >>> 4) % 16), hexDigit (n % 16)]

/-- `hashlib.sha256(content).hexdigest()`: the 64-character lowercase hex
digest of a byte list; and the body of `compute_sha256` in `security.py`. -/
def compute_sha256 (content : List Nat) : String :=
  String.mk ((sha256Words content).map word32Hex).flatten

/-- UTF-8 encoding of one character (`str.encode()` is UTF-8 in Python 3). -/
def charUtf8 (c : Char) : List Nat :=
  let n := c.toNat
  if n < 0x80 then [n]
  else if n < 0x800 then [0xc0 ||| (n >>> 6), 0x80 ||| (n &&& 0x3f)]
  else if n < 0x10000 then
    [0xe0 ||| (n >>> 12), 0x80 ||| ((n >>> 6) &&& 0x3f), 0x80 ||| (n &&& 0x3f)]
  else
    [0xf0 ||| (n >>> 18), 0x80 ||| ((n >>> 12) &&& 0x3f),
     0x80 ||| ((n >>> 6) &&& 0x3f), 0x80 ||| (n &&& 0x3f)]

/-- UTF-8 byte encoding of a string (`url.encode()`). -/
def strUtf8 (s : String) : List Nat :=
  (s.toList.map charUtf8).flatten

/-! ## `discovery.py`: `Tool` and `Catalog` -/

/-- A `Tool` as built by `Tool.__init__` from one catalog entry: each field is
the corresponding `spec.get(...)` result (an arbitrary decoded JSON value, as
in the source, which performs no type validation). -/
structure Tool where
  spec : JVal
  id : JVal
  description : JVal
  parameters : JVal
  examples : JVal
  server_url : JVal
  capabilities : JVal

/-- `Tool.__init__`: `id = spec.get('name', spec.get('operationId', ''))`;
`description`, `parameters` from the entry; `examples`, `server_url` and
`capabilities` from the `x-mcp-tool` sub-dict (default `\x7b\x7d`).  A
non-dict entry (or non-dict `x-mcp-tool` value) raises `AttributeError` at the
first `.get` on it. -/
def Tool.ofSpec (spec : JVal) : Except PyExn Tool := do
  let opId ← pyGet spec "operationId" (.str "")
  let name ← pyGet spec "name" opId
  let descr ← pyGet spec "description" (.str "")
  let params ← pyGet spec "parameters" (.obj [])
  let xmcp ← pyGet spec "x-mcp-tool" (.obj [])
  let exs ← pyGet xmcp "examples" (.arr [])
  let srv ← pyGet xmcp "server_url" (.str "")
  let caps ← pyGet xmcp "capabilities" (.arr [])
  .ok ⟨spec, name, descr, params, exs, srv, caps⟩

/-- The mutable state of a `Catalog` object.  `hasVerifier` mirrors
`self._verifier is not None`; `Catalog.__init__` sets it equal to
`verify_signatures`. -/
structure Catalog where
  url : String
  verify_signatures : Bool
  catalog_data : Option JVal
  toolsCache : Option (List Tool)

/-- `Catalog.__init__(url, verify_signatures)`. -/
def Catalog.init (url : String) (verify_signatures : Bool) : Catalog :=
  ⟨url, verify_signatures, none, none⟩

/-- `self._verifier` is non-`None` exactly when `verify_signatures` was set at
construction (`CatalogVerifier() if verify_signatures else None`). -/
def Catalog.hasVerifier (c : Catalog) : Bool := c.verify_signatures

/-- Python truthiness of `self._catalog_data` (`None` and the empty dict are
both falsy). -/
def optTruthy : Option JVal → Bool
  | none => false
  | some v => v.truthy

/-- The network and external-library environment of `discovery.py`: the text
and byte bodies served at each URL (`aiohttp` GET with `raise_for_status`
folded into the outcome), `json.loads`, and the outcome of
`CatalogVerifier.verify_catalog` on a signed payload. -/
structure NetEnv where
  httpGetText : String → Except PyExn String
  httpGetBytes : String → Except PyExn (List Nat)
  jsonLoads : String → Except PyExn JVal
  verifierVerify : String → String → Except PyExn JVal

/-- The `len(self._catalog_data.get('tools', []))` evaluated by `fetch`'s log
line after the cache is already assigned: `.get` on a non-dict raises
`AttributeError`; `len` of a number, bool or `None` raises `TypeError`. -/
def toolsLenOk (d : JVal) : Except PyExn Unit :=
  match d with
  | .obj kvs =>
    match (objFind? kvs "tools").getD (.arr []) with
    | .arr _ => .ok ()
    | .obj _ => .ok ()
    | .str _ => .ok ()
    | _ => .error .typeError
  | _ => .error .attributeError

/-- `Catalog.fetch`: GET the catalog URL; a `.json`-suffixed URL is parsed as
plain JSON, otherwise the content goes to the verifier when one exists and is
otherwise parsed as plain JSON.  The parsed document is assigned to
`self._catalog_data` before the log line runs, so the cache survives a
failure of that line.  The `try/except` in the source logs and re-raises, so
exceptions propagate unchanged. -/
def Catalog.fetch (c : Catalog) (env : NetEnv) : Catalog × Except PyExn JVal :=
  match env.httpGetText c.url with
  | .error e => (c, .error e)
  | .ok content =>
    let parsed : Except PyExn JVal :=
      if strEndsWith c.url ".json" then env.jsonLoads content
      else if c.hasVerifier then env.verifierVerify content c.url
      else env.jsonLoads content
    match parsed with
    | .error e => (c, .error e)
    | .ok d =>
      let c' := { c with catalog_data := some d }
      match toolsLenOk d with
      | .error e => (c', .error e)
      | .ok _ => (c', .ok d)

/-- `Catalog._verify_content_integrity(url, hash)`: fetch the referenced
bytes and compare their SHA-256 hex digest with the recorded value; the
blanket `except` returns `False` on any failure (including a non-string URL,
whose `session.get` raises).  A non-string recorded hash simply compares
unequal. -/
def Catalog.verifyContentIntegrityM (env : NetEnv) (url expected : JVal) : Bool :=
  match url with
  | .str u =>
    match env.httpGetBytes u with
    | .error _ => false
    | .ok content =>
      match expected with
      | .str e => compute_sha256 content == e
      | _ => false
  | _ => false

/-- One iteration of `Catalog.verify`'s loop body: records with a truthy
`spec_url` and `spec_hash` are digest-checked, others are skipped; a non-dict
record raises `AttributeError` at `tool_spec.get`. -/
def Catalog.checkToolSpec (env : NetEnv) (ts : JVal) : Except PyExn Bool :=
  match ts with
  | .obj kvs =>
    let spec_url := (objFind? kvs "spec_url").getD .null
    let expected := (objFind? kvs "spec_hash").getD .null
    if spec_url.truthy && expected.truthy then
      .ok (Catalog.verifyContentIntegrityM env spec_url expected)
    else .ok true
  | _ => .error .attributeError

/-- `Catalog.verify`'s loop over the tool records: the first failed integrity
check returns `False` immediately; an exhausted loop returns `True`. -/
def Catalog.phaseBLoop (env : NetEnv) : List JVal → Except PyExn Bool
  | [] => .ok true
  | ts :: rest =>
    match Catalog.checkToolSpec env ts with
    | .error e => .error e
    | .ok true => Catalog.phaseBLoop env rest
    | .ok false => .ok false

/-- The body of `Catalog.verify`'s `try` block:
`self._catalog_data.get('tools', [])` iterated with `checkToolSpec` on each
record. -/
def Catalog.verifyBody (env : NetEnv) (dat : Option JVal) : Except PyExn Bool :=
  match dat with
  | none => .error .attributeError
  | some d =>
    match d with
    | .obj kvs =>
      match pyIterElems ((objFind? kvs "tools").getD (.arr [])) with
      | .error e => .error e
      | .ok specs => Catalog.phaseBLoop env specs
    | _ => .error .attributeError

/-- `Catalog.verify`: returns `True` immediately when signature verification
is disabled (or no verifier exists); re-fetches first when the cached
document is falsy, propagating fetch exceptions; then runs the content
integrity loop, whose blanket `except` turns any exception into `False`. -/
def Catalog.verify (c : Catalog) (env : NetEnv) : Catalog × Except PyExn Bool :=
  if !c.verify_signatures || !c.hasVerifier then (c, .ok true)
  else
    let fetchStep : Catalog × Option PyExn :=
      if !(optTruthy c.catalog_data) then
        match Catalog.fetch c env with
        | (c2, .error e) => (c2, some e)
        | (c2, .ok _) => (c2, none)
      else (c, none)
    match fetchStep with
    | (c', some e) => (c', .error e)
    | (c', none) =>
      match Catalog.verifyBody env c'.catalog_data with
      | .ok b => (c', .ok b)
      | .error _ => (c', .ok false)

/-- Building `self._tools` from the catalog entries (the list comprehension
`[Tool(spec, self) for spec in ...]`); a bad entry's exception propagates. -/
def Catalog.buildTools : List JVal → Except PyExn (List Tool)
  | [] => .ok []
  | s :: rest =>
    match Tool.ofSpec s with
    | .error e => .error e
    | .ok t =>
      match Catalog.buildTools rest with
      | .error e => .error e
      | .ok ts => .ok (t :: ts)

/-- Sequential filtering of the tool list by an `Except`-valued predicate, in
list order (a list comprehension whose condition may raise). -/
def filterToolsM (p : Tool → Except PyExn Bool) : List Tool → Except PyExn (List Tool)
  | [] => .ok []
  | t :: rest =>
    match p t with
    | .error e => .error e
    | .ok keep =>
      match filterToolsM p rest with
      | .error e => .error e
      | .ok ts => .ok (if keep then t :: ts else ts)

/-- `str.lower()` on a decoded JSON value; a non-string raises
`AttributeError`. -/
def pyLower (v : JVal) : Except PyExn String :=
  match v with
  | .str s => .ok s.toLower
  | _ => .error .attributeError

/-- One keyword filter of `Catalog.find`: substring match on the description
for `description_contains`, truthiness comparison for `has_examples`, and any
other key is ignored. -/
def applyOneFilter (key : String) (value : JVal) (results : List Tool) :
    Except PyExn (List Tool) :=
  if key == "description_contains" then
    filterToolsM (fun t =>
      match pyLower value with
      | .error e => .error e
      | .ok vl =>
        match pyLower t.description with
        | .error e => .error e
        | .ok dl => .ok (strContains dl vl)) results
  else if key == "has_examples" then
    filterToolsM (fun t => .ok (pyEqBool t.examples.truthy value)) results
  else .ok results

/-- The keyword filters of `Catalog.find`, applied in iteration order. -/
def applyFilters : List (String × JVal) → List Tool → Except PyExn (List Tool)
  | [], res => .ok res
  | (k, v) :: rest, res =>
    match applyOneFilter k v res with
    | .error e => .error e
    | .ok res' => applyFilters rest res'

/-- `Catalog.find`: raises `RuntimeError` (the spec's `NotFetchedError`) when
`self._catalog_data` is falsy (absent or an empty document); rebuilds the
tool cache when it is falsy (absent or empty); then applies the truthy
capability filter and the keyword filters.  The method touches no network. -/
def Catalog.find (c : Catalog) (capability : Option String)
    (filters : List (String × JVal)) : Except PyExn (Catalog × List Tool) :=
  if !(optTruthy c.catalog_data) then
    .error (.runtimeError "Catalog not fetched. Call fetch() first.")
  else
    let cacheFalsy := match c.toolsCache with
      | none => true
      | some ts => ts.isEmpty
    let built : Except PyExn (Catalog × List Tool) :=
      if cacheFalsy then
        match pyGet (c.catalog_data.getD .null) "tools" (.arr []) with
        | .error e => .error e
        | .ok tv =>
          match pyIterElems tv with
          | .error e => .error e
          | .ok specs =>
            match Catalog.buildTools specs with
            | .error e => .error e
            | .ok ts => .ok ({ c with toolsCache := some ts }, ts)
      else .ok (c, c.toolsCache.getD [])
    match built with
    | .error e => .error e
    | .ok (c', allTools) =>
      let capFiltered : Except PyExn (List Tool) :=
        match capability with
        | some cap =>
          if cap ≠ "" then
            filterToolsM (fun t => pyContainsStr cap t.capabilities) allTools
          else .ok allTools
        | none => .ok allTools
      match capFiltered with
      | .error e => .error e
      | .ok results =>
        match applyFilters filters results with
        | .error e => .error e
        | .ok results' => .ok (c', results')

/-- `Catalog.get_tool(tool_id)`: `self.find()` with no arguments, then the
first tool whose `id` equals the argument (Python `==` between an arbitrary
value and a string holds only for an equal string), else `None`. -/
def Catalog.get_tool (c : Catalog) (tool_id : String) :
    Except PyExn (Catalog × Option Tool) :=
  match Catalog.find c none [] with
  | .error e => .error e
  | .ok (c', ts) =>
    .ok (c', ts.find? (fun t => match t.id with | .str s => s == tool_id | _ => false))

/-! ## `mcp_client.py`: `MCPClient.call_tool` and `Tool.call` -/

/-- `endpoint.rstrip('/')`. -/
def rstripSlash (s : String) : String :=
  String.mk ((s.toList.reverse.dropWhile (fun c => c == '/')).reverse)

/-- The scheme part of a URL (`urlparse(url).scheme` for well-formed URLs). -/
def urlScheme (u : String) : String :=
  match strSplitOn u "://" with
  | [sch, _] => sch
  | _ => ""

/-- The authority part of a URL (`urlparse(url).netloc` for well-formed
URLs). -/
def urlNetloc (u : String) : String :=
  match strSplitOn u "://" with
  | [_, rest] => (strSplitOn rest "/").headD ""
  | _ => ""

/-- `urljoin(self.endpoint, "/mcp")`: an absolute-path reference keeps the
scheme and authority of the base URL and replaces its path. -/
def urljoinMcp (endpoint : String) : String :=
  match strSplitOn endpoint "://" with
  | [sch, rest] => sch ++ "://" ++ (strSplitOn rest "/").headD "" ++ "/mcp"
  | _ => "/mcp"

/-- An `MCPClient` after `__init__` (the trailing-slash strip applied). -/
structure MCPClient where
  endpoint : String

/-- `MCPClient.__init__(endpoint)`. -/
def MCPClient.init (endpoint : String) : MCPClient :=
  ⟨rstripSlash endpoint⟩

/-- The JSON-RPC request envelope framed by `call_tool`; `objId` stands for
the CPython `id(params)` token interpolated into the request id. -/
def mcpRequest (toolId : JVal) (params : JVal) (objId : Nat) : JVal :=
  .obj [("jsonrpc", .str "2.0"),
        ("id", .str ("tool_" ++ pyStrOf toolId ++ "_" ++ toString objId)),
        ("method", .str "tools/call"),
        ("params", .obj [("name", toolId), ("arguments", params)])]

/-- The transport environment of `MCPClient`: the JSON body answered to a
POST (connection errors and non-2xx statuses as `clientError`, JSON decoding
failures as `jsonError`), plus the `id(params)` token. -/
structure McpEnv where
  post : String → JVal → Except PyExn JVal
  objId : Nat

/-- `call_tool`'s two `except` clauses: an `aiohttp.ClientError` becomes
`MCPError("Network error: ...")`, every other exception — including the
`MCPError` raised for an error envelope inside the same `try` —
becomes `MCPError("Unexpected error: ...")`. -/
def mcpWrap (e : PyExn) : PyExn :=
  match e with
  | .clientError m => .mcpError ("Network error: " ++ m)
  | e => .mcpError ("Unexpected error: " ++ pyExnStr e)

/-- `MCPClient.call_tool`: frame the request, POST it once, and decode the
envelope: an `error` key (even alongside `result`) raises `MCPError` built
from the error's `code` and `message`; otherwise the `result` value (default
`\x7b\x7d`) is returned.  The second component counts POSTs issued (always
exactly one — the source never retries). -/
def MCPClient.call_tool (client : MCPClient) (tool : Tool) (params : JVal)
    (env : McpEnv) : Except PyExn JVal × Nat :=
  let url := urljoinMcp client.endpoint
  let req := mcpRequest tool.id params env.objId
  match env.post url req with
  | .error e => (.error (mcpWrap e), 1)
  | .ok result =>
    match pyContainsStr "error" result with
    | .error e => (.error (mcpWrap e), 1)
    | .ok true =>
      let inner : Except PyExn JVal :=
        match pySubscript result "error" with
        | .error e => .error e
        | .ok errv =>
          match pyGet errv "code" (.str "unknown") with
          | .error e => .error e
          | .ok code =>
            match pyGet errv "message" (.str "Unknown error") with
            | .error e => .error e
            | .ok msg =>
              .error (.mcpError ("MCP Error " ++ pyStrOf code ++ ": " ++ pyStrOf msg))
      match inner with
      | .error e => (.error (mcpWrap e), 1)
      | .ok v => (.ok v, 1)
    | .ok false =>
      match pyGet result "result" (.obj []) with
      | .error e => (.error (mcpWrap e), 1)
      | .ok v => (.ok v, 1)

/-- `Tool.call`: a falsy `server_url` raises `ValueError` (the spec's
`ConfigurationError`) before an `MCPClient` is even constructed, so the POST
counter stays at zero; otherwise the call goes through `MCPClient.call_tool`
(a truthy non-string `server_url` would fail at `endpoint.rstrip`). -/
def Tool.call (t : Tool) (params : JVal) (env : McpEnv) : Except PyExn JVal × Nat :=
  if !t.server_url.truthy then
    (.error (.valueError ("No server URL configured for tool " ++ pyStrOf t.id)), 0)
  else
    match t.server_url with
    | .str u => MCPClient.call_tool (MCPClient.init u) t params env
    | _ => (.error .attributeError, 0)

/-! ## `security.py`: key resolution, content integrity, and the signer -/

/-- A resolved public key: either decoded from a JWK (the DID and JWKS
strategies) or loaded from a PEM string (the trust-store strategy). -/
inductive PKey where
  | fromJwk (j : JVal)
  | fromPem (s : String)

/-- The outcome of one HTTP GET expected to yield JSON: a connection-level
exception, or a status code together with the body's JSON decoding outcome
(the body is only read on the paths that reach `.json()`). -/
inductive HttpJsonOutcome where
  | exn (e : PyExn)
  | resp (status : Nat) (body : Except PyExn JVal)

/-- The environment of the key resolver: the network's answer at each URL and
the two key-decoding library calls (`RSAAlgorithm.from_jwk` and
`load_pem_public_key`). -/
structure KeyEnv where
  http : String → HttpJsonOutcome
  fromJwk : JVal → Except PyExn PKey
  loadPem : String → Except PyExn PKey

/-- A `CatalogVerifier`: its caller-supplied key-id → PEM trust store. -/
structure CatalogVerifier where
  trusted_keys : List (String × String)

/-- `key_id in self.trusted_keys` followed by `self.trusted_keys[key_id]`. -/
def lookupTrusted (tk : List (String × String)) (kid : String) : Option String :=
  (tk.find? (fun p => p.1 == kid)).map (fun p => p.2)

/-- The well-known trust-document URL derived from the catalog origin
(`https://{domain\x7d/.well-known/did.json`). -/
def didWebUrl (catalogUrl : String) : String :=
  "https://" ++ urlNetloc catalogUrl ++ "/.well-known/did.json"

/-- The well-known key-set URL derived from the catalog origin
(`{scheme\x7d://{netloc\x7d/.well-known/jwks.json`). -/
def jwksUrl (catalogUrl : String) : String :=
  urlScheme catalogUrl ++ "://" ++ urlNetloc catalogUrl ++ "/.well-known/jwks.json"

/-- `CatalogVerifier._load_public_key_from_string`: a PEM decoding failure is
re-raised as `SecurityError("Invalid public key format: ...")`. -/
def CatalogVerifier.loadPublicKeyFromString (env : KeyEnv) (s : String) :
    Except PyExn PKey :=
  match env.loadPem s with
  | .ok k => .ok k
  | .error e => .error (.securityError ("Invalid public key format: " ++ pyExnStr e))

/-- The loop of `_extract_public_key_from_did`: the first verification method
whose `id` ends with the key id (every method when the key id is falsy) and
which carries a truthy `publicKeyJwk` is decoded and returned; an exhausted
loop raises `SecurityError`. -/
def extractLoop (env : KeyEnv) (keyId : Option String) :
    List JVal → Except PyExn PKey
  | [] => .error (.securityError "No suitable public key found in DID document")
  | m :: rest =>
    let matched : Except PyExn Bool :=
      match keyId with
      | none => .ok true
      | some kid =>
        if kid == "" then .ok true
        else
          match pyGet m "id" (.str "") with
          | .error e => .error e
          | .ok (.str s) => .ok (strEndsWith s kid)
          | .ok _ => .error .attributeError
    match matched with
    | .error e => .error e
    | .ok true =>
      match pyGet m "publicKeyJwk" .null with
      | .error e => .error e
      | .ok jwk => if jwk.truthy then env.fromJwk jwk else extractLoop env keyId rest
    | .ok false => extractLoop env keyId rest

/-- `CatalogVerifier._extract_public_key_from_did`: iterate
`did_document.get('verificationMethod', [])` with `extractLoop`. -/
def CatalogVerifier.extractFromDid (env : KeyEnv) (didDoc : JVal)
    (keyId : Option String) : Except PyExn PKey :=
  match pyGet didDoc "verificationMethod" (.arr []) with
  | .error e => .error e
  | .ok vms =>
    match pyIterElems vms with
    | .error e => .error e
    | .ok methods => extractLoop env keyId methods

/-- The loop of `_get_key_from_jwks`: the first key whose `kid` equals the
key id (every key when the key id is falsy) is decoded and returned; an
exhausted loop raises `SecurityError`. -/
def jwksLoop (env : KeyEnv) (keyId : Option String) : List JVal → Except PyExn PKey
  | [] => .error (.securityError "No suitable key found in JWKS")
  | k :: rest =>
    let matched : Except PyExn Bool :=
      match keyId with
      | none => .ok true
      | some kid =>
        if kid == "" then .ok true
        else
          match pyGet k "kid" .null with
          | .error e => .error e
          | .ok (.str s) => .ok (s == kid)
          | .ok _ => .ok false
    match matched with
    | .error e => .error e
    | .ok true => env.fromJwk k
    | .ok false => jwksLoop env keyId rest

/-- The body of `_get_key_from_jwks`'s `try`: fetch the well-known key set
(`raise_for_status` on a 4xx/5xx status), then select a key with
`jwksLoop`. -/
def CatalogVerifier.getKeyFromJwksInner (env : KeyEnv) (catalogUrl : String)
    (keyId : Option String) : Except PyExn PKey :=
  match env.http (jwksUrl catalogUrl) with
  | .exn e => .error e
  | .resp status body =>
    if 400 ≤ status then .error (.clientError "HTTP status error")
    else
      match body with
      | .error e => .error e
      | .ok jwks =>
        match pyGet jwks "keys" (.arr []) with
        | .error e => .error e
        | .ok keysV =>
          match pyIterElems keysV with
          | .error e => .error e
          | .ok keys => jwksLoop env keyId keys

/-- The `except` clause of `_get_key_from_jwks`: every failure inside the
`try` — including the "No suitable key" `SecurityError` — is re-raised as
`SecurityError("Could not retrieve JWKS: ...")`. -/
def jwksResolveWrap (r : Except PyExn PKey) : Except PyExn PKey :=
  match r with
  | .ok k => .ok k
  | .error e => .error (.securityError ("Could not retrieve JWKS: " ++ pyExnStr e))

/-- `CatalogVerifier._get_key_from_jwks`: the `try` body under its `except`
re-wrapper. -/
def CatalogVerifier.getKeyFromJwks (env : KeyEnv) (catalogUrl : String)
    (keyId : Option String) : Except PyExn PKey :=
  jwksResolveWrap (CatalogVerifier.getKeyFromJwksInner env catalogUrl keyId)

/-- `CatalogVerifier._get_public_key`: one `try` covers the whole strategy
chain.  A 200 trust document is decoded by `_extract_public_key_from_did` and
its failure aborts the chain; only a non-200 status (without an exception)
falls through to the trust store and then to JWKS.  Any failure inside the
`try` is re-raised as `SecurityError("Could not retrieve public key for
verification: ...")`. -/
def CatalogVerifier.getPublicKeyInner (v : CatalogVerifier) (catalogUrl : String)
    (keyId : Option String) (env : KeyEnv) : Except PyExn PKey :=
  match env.http (didWebUrl catalogUrl) with
  | .exn e => .error e
  | .resp status body =>
    if status == 200 then
      match body with
      | .error e => .error e
      | .ok doc => CatalogVerifier.extractFromDid env doc keyId
    else
      match keyId with
      | some kid =>
        if kid != "" then
          match lookupTrusted v.trusted_keys kid with
          | some pem => CatalogVerifier.loadPublicKeyFromString env pem
          | none => CatalogVerifier.getKeyFromJwks env catalogUrl keyId
        else CatalogVerifier.getKeyFromJwks env catalogUrl keyId
      | none => CatalogVerifier.getKeyFromJwks env catalogUrl keyId

/-- The `except` clause of `_get_public_key`: any failure inside the `try` is
re-raised as `SecurityError("Could not retrieve public key for
verification: ...")`. -/
def keyResolveWrap (r : Except PyExn PKey) : Except PyExn PKey :=
  match r with
  | .ok k => .ok k
  | .error e =>
    .error (.securityError ("Could not retrieve public key for verification: " ++ pyExnStr e))

/-- `CatalogVerifier._get_public_key`: the strategy-chain `try` body under
its `except` re-wrapper. -/
def CatalogVerifier.getPublicKey (v : CatalogVerifier) (catalogUrl : String)
    (keyId : Option String) (env : KeyEnv) : Except PyExn PKey :=
  keyResolveWrap (CatalogVerifier.getPublicKeyInner v catalogUrl keyId env)

/-- Module-level `verify_content_integrity(url, expected_hash)`: fetch the
bytes at the URL and compare `compute_sha256` with the expectation; the
blanket `except` returns `False` on any failure, so the function never
propagates an exception. -/
def verify_content_integrity (env : NetEnv) (url : String) (expected_hash : String) :
    Except PyExn Bool :=
  match env.httpGetBytes url with
  | .error _ => .ok false
  | .ok content => .ok (compute_sha256 content == expected_hash)

/-! ### `CatalogSigner`, with Python object aliasing made explicit

`_add_content_hashes` runs `catalog.copy()` — a shallow copy: the fresh
top-level dict shares the `tools` list object and every tool dict object with
the caller's document.  The embedding makes the sharing explicit: the tool
dicts live in a heap (a list indexed by position) and the catalog document
holds pointers into it, so an in-place `tool['spec_hash'] = ...` is a heap
update visible through both documents. -/

/-- A mutable tool dict (one heap cell). -/
abbrev ToolDict := List (String × JVal)

/-- A catalog document as the signer sees it: its non-`tools` fields and, when
a `tools` key is present, the pointers of its tool dicts (modelling the
usual shape, a list of dicts). -/
structure CatalogDocRef where
  otherFields : List (String × JVal)
  toolPtrs : Option (List Nat)

/-- Python `d[k] = v` on a dict: overwrite in place when present, append
otherwise. -/
def setKeyTD (td : ToolDict) (k : String) (v : JVal) : ToolDict :=
  if hasKey td k then td.map (fun p => if p.1 == k then (k, v) else p)
  else td ++ [(k, v)]

/-- `CatalogSigner._compute_placeholder_hash(url)`: the SHA-256 hex digest of
the URL string itself — not of any fetched content. -/
def compute_placeholder_hash (url : String) : String :=
  compute_sha256 (strUtf8 url)

/-- The loop of `_add_content_hashes`: for each referenced tool dict with a
truthy `spec_url` and no `spec_hash` key, write the placeholder digest into
the heap cell in place (a truthy non-string URL raises at `url.encode()`;
cells mutated before such a failure stay mutated). -/
def addHashesLoop (heap : List ToolDict) : List Nat → List ToolDict × Option PyExn
  | [] => (heap, none)
  | p :: rest =>
    let td := heap.getD p []
    let spec_url := (objFind? td "spec_url").getD .null
    if spec_url.truthy && !hasKey td "spec_hash" then
      match spec_url with
      | .str u =>
        addHashesLoop (heap.set p (setKeyTD td "spec_hash" (.str (compute_placeholder_hash u)))) rest
      | _ => (heap, some .attributeError)
    else addHashesLoop heap rest

/-- `CatalogSigner._add_content_hashes`: shallow-copy the top level
(`catalog.copy()` — same field values, same tool pointers), then run the
mutation loop over `catalog_copy.get('tools', [])`. -/
def CatalogSigner._add_content_hashes (heap : List ToolDict) (catalog : CatalogDocRef) :
    List ToolDict × Except PyExn CatalogDocRef :=
  match addHashesLoop heap (catalog.toolPtrs.getD []) with
  | (h, none) => (h, .ok ⟨catalog.otherFields, catalog.toolPtrs⟩)
  | (h, some e) => (h, .error e)

/-- The signing environment: the outcome of `jwt.encode(payload, key,
"RS256", headers)` on the (heap, document) payload; the key id passed through
to the `kid` header. -/
structure SignEnv where
  jwtEncode : List ToolDict → CatalogDocRef → Option String → Except PyExn String

/-- `CatalogSigner.sign_catalog`: attach the placeholder digests (mutating
shared tool dicts in place), then JWS-encode the result; the `try/except`
logs and re-raises, so exceptions propagate.  The returned heap is the state
of the tool dicts after the call — the caller's document sees it too. -/
def CatalogSigner.sign_catalog (key_id : Option String) (env : SignEnv)
    (heap : List ToolDict) (catalog : CatalogDocRef) :
    List ToolDict × Except PyExn String :=
  match CatalogSigner._add_content_hashes heap catalog with
  | (h, .error e) => (h, .error e)
  | (h, .ok cwh) =>
    match env.jwtEncode h cwh key_id with
    | .error e => (h, .error e)
    | .ok tok => (h, .ok tok)

/-! ## Helper lemmas -/

set_option maxRecDepth 10000

/-- Key presence agrees with key lookup. -/
theorem hasKey_eq_isSome (kvs : List (String × JVal)) (k : String) :
    hasKey kvs k = (objFind? kvs k).isSome := by
  unfold hasKey objFind?
  cases kvs.find? (fun p => p.1 == k) <;> rfl

/-! ## Claim C6 — the digest utility -/

/-- C6, as stated, is false: the spec's test-vector string has 63 hex
characters, but `hashlib.sha256(b"").hexdigest()` — embedded here as
`compute_sha256 []` — is a 64-character digest (the spec dropped the final
`5`). -/
theorem C6_counterexample :
    compute_sha256 [] ≠ "e3b0c44298fc1c149afbf4c8996fb92427ae41e4649b934ca495991b7852b85" := by
  decide

/-- C6 amended: the digest utility is deterministic, and on the fixed test
vector `b""` it returns exactly the 64-character hex digest
`e3b0c44298fc1c149afbf4c8996fb92427ae41e4649b934ca495991b7852b855`. -/
theorem C6_amended_digest :
    compute_sha256 [] = "e3b0c44298fc1c149afbf4c8996fb92427ae41e4649b934ca495991b7852b855"
    ∧ ∀ x : List Nat, compute_sha256 x = compute_sha256 x := by
  exact ⟨by decide, fun x => rfl⟩

/-! ## Claim C7 — `verify_content_integrity` fails closed -/

/-- C7: for every fetch outcome and every expected-digest string,
`verify_content_integrity` returns a boolean and never propagates an
exception; a fetch error or a digest mismatch yields `False`, and a match
yields `True`. -/
theorem C7_fails_closed : ∀ (env : NetEnv) (url expected : String),
    (∀ e : PyExn, verify_content_integrity env url expected ≠ .error e)
    ∧ (∀ e : PyExn, env.httpGetBytes url = .error e →
        verify_content_integrity env url expected = .ok false)
    ∧ (∀ content : List Nat, env.httpGetBytes url = .ok content →
        compute_sha256 content ≠ expected →
        verify_content_integrity env url expected = .ok false)
    ∧ (∀ content : List Nat, env.httpGetBytes url = .ok content →
        compute_sha256 content = expected →
        verify_content_integrity env url expected = .ok true) := by
  intro env url expected
  refine ⟨?_, ?_, ?_, ?_⟩
  · intro e h
    unfold verify_content_integrity at h
    cases hb : env.httpGetBytes url <;> rw [hb] at h <;> exact Except.noConfusion h
  · intro e hb
    unfold verify_content_integrity
    rw [hb]
  · intro content hb hne
    unfold verify_content_integrity
    rw [hb]
    simp [hne]
  · intro content hb heq
    unfold verify_content_integrity
    rw [hb]
    simp [heq]

/-- A network environment in which every fetch fails. -/
def envC7 : NetEnv :=
  { httpGetText := fun _ => .error (.clientError "connection refused")
  , httpGetBytes := fun _ => .error (.clientError "connection refused")
  , jsonLoads := fun _ => .error .jsonError
  , verifierVerify := fun _ _ => .error (.securityError "bad signature") }

/-- C7 witness: at a concrete failing fetch, the function returns `False`
rather than raising. -/
theorem C7_witness :
    verify_content_integrity envC7 "https://example.com/spec.json" "00" = .ok false :=
  (C7_fails_closed envC7 "https://example.com/spec.json" "00").2.1
    (.clientError "connection refused") rfl

/-! ## Claim C9 — empty endpoint fails before any network activity -/

/-- C9: a tool whose `server_url` is the empty string fails `call` with the
`ValueError` (the spec's `ConfigurationError`) built from the tool id, and the
POST counter of the result is `0` — no network call is framed or sent. -/
theorem C9_empty_endpoint_no_network : ∀ (t : Tool) (params : JVal) (env : McpEnv),
    t.server_url = .str "" →
    Tool.call t params env =
      (.error (.valueError ("No server URL configured for tool " ++ pyStrOf t.id)), 0) := by
  intro t params env h
  unfold Tool.call
  rw [h]
  rfl

/-- A concrete tool with an empty server URL. -/
def toolC9 : Tool :=
  ⟨.obj [("name", .str "t1")], .str "t1", .str "", .obj [], .arr [], .str "", .arr []⟩

/-- A transport environment whose POST always fails (it is never reached). -/
def envMcpC9 : McpEnv := ⟨fun _ _ => .error (.clientError "no network"), 0⟩

/-- C9 witness: the concrete empty-endpoint tool raises the configuration
error with zero POSTs issued. -/
theorem C9_witness :
    Tool.call toolC9 (.obj []) envMcpC9 =
      (.error (.valueError "No server URL configured for tool t1"), 0) :=
  C9_empty_endpoint_no_network toolC9 (.obj []) envMcpC9 rfl

/-! ## Claim C10 — tool id derivation and lookup collision -/

/-- A catalog entry named through the `name` field. -/
def specC10a : JVal := .obj [("name", .str "a"), ("description", .str "first entry")]

/-- A catalog entry named only through the `operationId` field. -/
def specC10b : JVal := .obj [("operationId", .str "a"), ("description", .str "second entry")]

/-- The tool built from `specC10a`. -/
def toolC10a : Tool := ⟨specC10a, .str "a", .str "first entry", .obj [], .arr [], .str "", .arr []⟩

/-- The tool built from `specC10b`. -/
def toolC10b : Tool := ⟨specC10b, .str "a", .str "second entry", .obj [], .arr [], .str "", .arr []⟩

/-- A fetched catalog holding both entries, in order. -/
def catC10 : Catalog :=
  ⟨"https://example.com/catalog.json", true, some (.obj [("tools", .arr [specC10a, specC10b])]), none⟩

/-- `catC10` after `find` has populated the tool cache. -/
def catC10' : Catalog := { catC10 with toolsCache := some [toolC10a, toolC10b] }

/-- C10: the public id of a tool built from a dict entry is the entry's
`name` value when that key is present, else its `operationId` value when that
key is present, else the empty string; and two concrete entries with
different raw fields (one has `name`, the other does not) collide on the id
`"a"`, on which `get_tool` returns the first in catalog order. -/
theorem C10_id_fallback_and_collision :
    (∀ (kvs : List (String × JVal)) (t : Tool),
      Tool.ofSpec (.obj kvs) = .ok t →
      t.id = (objFind? kvs "name").getD ((objFind? kvs "operationId").getD (.str "")))
    ∧ Tool.ofSpec specC10a = .ok toolC10a
    ∧ Tool.ofSpec specC10b = .ok toolC10b
    ∧ toolC10a.id = .str "a"
    ∧ toolC10b.id = .str "a"
    ∧ pyGet specC10a "name" .null = .ok (.str "a")
    ∧ pyGet specC10b "name" .null = .ok .null
    ∧ Catalog.get_tool catC10 "a" = .ok (catC10', some toolC10a) := by
  refine ⟨?_, rfl, rfl, rfl, rfl, rfl, rfl, rfl⟩
  intro kvs t h
  unfold Tool.ofSpec at h
  cases hv : (objFind? kvs "x-mcp-tool").getD (.obj []) with
  | obj kvs2 =>
    simp only [pyGet, Except.bind, bind, hv] at h
    cases h
    rfl
  | null => simp only [pyGet, Except.bind, bind, hv] at h; exact Except.noConfusion h
  | bool b => simp only [pyGet, Except.bind, bind, hv] at h; exact Except.noConfusion h
  | num n => simp only [pyGet, Except.bind, bind, hv] at h; exact Except.noConfusion h
  | str s => simp only [pyGet, Except.bind, bind, hv] at h; exact Except.noConfusion h
  | arr xs => simp only [pyGet, Except.bind, bind, hv] at h; exact Except.noConfusion h

/-- C10 witness: the id-derivation rule applied to the concrete
`operationId`-only entry yields the fallback id `"a"`. -/
theorem C10_witness : toolC10b.id = .str "a" :=
  C10_id_fallback_and_collision.1
    [("operationId", .str "a"), ("description", .str "second entry")] toolC10b rfl

/-! ## Claim C8 — `find`/`get` before `fetch` -/

/-- The serialized empty JSON document. -/
def emptyObjBody : String := "\x7b\x7d"

/-- A network environment serving the empty JSON document at the catalog
URL. -/
def envC8 : NetEnv :=
  { httpGetText := fun u =>
      if u == "https://example.com/catalog.json" then .ok emptyObjBody
      else .error (.clientError "not found")
  , httpGetBytes := fun _ => .error (.clientError "not found")
  , jsonLoads := fun s => if s == emptyObjBody then .ok (.obj []) else .error .jsonError
  , verifierVerify := fun _ _ => .error (.securityError "not a JWS") }

/-- A fresh catalog model for the empty-document fetch. -/
def catC8 : Catalog := Catalog.init "https://example.com/catalog.json" true

/-- C8, as stated, is false on its second half: `fetch` completes
successfully on the empty JSON document, yet `find` and `get_tool` afterwards
still raise the not-fetched `RuntimeError`, because the guard tests Python
truthiness of the cached dict and the empty dict is falsy. -/
theorem C8_counterexample :
    (Catalog.fetch catC8 envC8).2 = .ok (.obj [])
    ∧ Catalog.find (Catalog.fetch catC8 envC8).1 none [] =
        .error (.runtimeError "Catalog not fetched. Call fetch() first.")
    ∧ Catalog.get_tool (Catalog.fetch catC8 envC8).1 "a" =
        .error (.runtimeError "Catalog not fetched. Call fetch() first.") :=
  ⟨rfl, rfl, rfl⟩

/-- C8 amended: whenever the cached document is falsy — absent because
`fetch` has not completed, or fetched but empty — every `find` (with any
arguments) and every `get_tool` raises the not-fetched `RuntimeError`; after
a fetch that produced a truthy document, `find` operates purely on the
cached document (the method takes no network environment at all, so no
re-fetch can occur), building and caching the tool list. -/
theorem C8_not_fetched_guard :
    (∀ (c : Catalog) (cap : Option String) (filters : List (String × JVal)) (tid : String),
      optTruthy c.catalog_data = false →
      Catalog.find c cap filters = .error (.runtimeError "Catalog not fetched. Call fetch() first.")
      ∧ Catalog.get_tool c tid = .error (.runtimeError "Catalog not fetched. Call fetch() first."))
    ∧ (∀ (c : Catalog) (kvs : List (String × JVal)) (specs : List JVal) (ts : List Tool),
      c.catalog_data = some (.obj kvs) → (JVal.obj kvs).truthy = true →
      c.toolsCache = none →
      objFind? kvs "tools" = some (.arr specs) →
      Catalog.buildTools specs = .ok ts →
      Catalog.find c none [] = .ok ({c with toolsCache := some ts}, ts)) := by
  constructor
  · intro c cap filters tid h
    constructor
    · unfold Catalog.find
      rw [h]
      rfl
    · unfold Catalog.get_tool Catalog.find
      rw [h]
      rfl
  · intro c kvs specs ts h1 h2 h3 h4 h5
    unfold Catalog.find
    rw [h1]
    simp only [optTruthy, h2, h3, Bool.not_true, Bool.false_eq_true, if_false,
      Option.getD_some, pyGet, h4, Option.getD, pyIterElems, h5]
    rfl

/-- A fetched catalog with one well-formed entry. -/
def catC8good : Catalog :=
  ⟨"https://example.com/catalog.json", true,
   some (.obj [("tools", .arr [.obj [("name", .str "g")]])]), none⟩

/-- The tool built from `catC8good`'s single entry. -/
def toolC8g : Tool :=
  ⟨.obj [("name", .str "g")], .str "g", .str "", .obj [], .arr [], .str "", .arr []⟩

/-- C8 witness: a freshly constructed catalog raises the not-fetched error,
and a catalog with a truthy cached document serves `find` from the cache. -/
theorem C8_witness :
    Catalog.find (Catalog.init "https://example.com/catalog.json" true) none [] =
      .error (.runtimeError "Catalog not fetched. Call fetch() first.")
    ∧ Catalog.find catC8good none [] =
      .ok ({ catC8good with toolsCache := some [toolC8g] }, [toolC8g]) :=
  ⟨(C8_not_fetched_guard.1 (Catalog.init "https://example.com/catalog.json" true)
      none [] "x" rfl).1,
   C8_not_fetched_guard.2 catC8good [("tools", .arr [.obj [("name", .str "g")]])]
      [.obj [("name", .str "g")]] [toolC8g] rfl rfl rfl rfl rfl⟩

/-! ## Claim C1 — acceptance of unsigned catalogs and Phase B in disabled mode -/

/-- The plain-JSON catalog body served in the C1 scenario. -/
def jsonBodyC1 : String := "\x7b\"tools\": []\x7d"

/-- The decoded plain-JSON catalog. -/
def docC1 : JVal := .obj [("tools", .arr [])]

/-- A catalog document with one tool whose recorded digest does not match the
referenced content. -/
def docC1bad : JVal :=
  .obj [("tools", .arr
    [.obj [("spec_url", .str "https://example.com/a.json"), ("spec_hash", .str "deadbeef")]])]

/-- A network environment serving the plain-JSON body at the catalog URL; the
verifier rejects everything and every byte fetch fails. -/
def envC1 : NetEnv :=
  { httpGetText := fun u =>
      if u == "https://example.com/catalog.json" then .ok jsonBodyC1
      else .error (.clientError "not found")
  , httpGetBytes := fun _ => .error (.clientError "not found")
  , jsonLoads := fun s => if s == jsonBodyC1 then .ok docC1 else .error .jsonError
  , verifierVerify := fun _ _ => .error (.securityError "Catalog signature verification failed") }

/-- A catalog with signature verification enabled, pointed at a `.json`
URL. -/
def catC1 : Catalog := Catalog.init "https://example.com/catalog.json" true

/-- A catalog with signature verification disabled whose cached document
carries a failing `specReference`. -/
def catC1b : Catalog :=
  ⟨"https://example.com/catalog", false, some docC1bad, none⟩

/-- C1, as stated, is false twice over: an unsigned plain-JSON catalog at a
`.json` URL is accepted by `fetch` although signature verification is
enabled; and with verification disabled, `verify` returns `True` at once —
skipping Phase B — on a document whose single `specReference` would fail the
content-integrity check (last conjunct). -/
theorem C1_counterexample :
    catC1.verify_signatures = true
    ∧ (Catalog.fetch catC1 envC1).2 = .ok docC1
    ∧ catC1b.verify_signatures = false
    ∧ Catalog.verify catC1b envC1 = (catC1b, .ok true)
    ∧ Catalog.verifyContentIntegrityM envC1 (.str "https://example.com/a.json")
        (.str "deadbeef") = false :=
  ⟨rfl, rfl, rfl, rfl, rfl⟩

/-- C1 amended: a plain-JSON catalog is accepted and cached whenever the
catalog URL ends in `.json`, regardless of the verification setting; for
other URLs the content is delegated to the verifier exactly when one exists
(verification enabled); and with signature verification disabled, `verify`
returns `True` immediately, performing no Phase B checks at all. -/
theorem C1_unsigned_acceptance :
    (∀ (c : Catalog) (env : NetEnv) (s : String) (d : JVal),
      strEndsWith c.url ".json" = true →
      env.httpGetText c.url = .ok s →
      env.jsonLoads s = .ok d →
      (Catalog.fetch c env).1.catalog_data = some d)
    ∧ (∀ (c : Catalog) (env : NetEnv) (s : String),
      strEndsWith c.url ".json" = false →
      c.hasVerifier = true →
      env.httpGetText c.url = .ok s →
      (∀ e, env.verifierVerify s c.url = .error e → Catalog.fetch c env = (c, .error e))
      ∧ (∀ d, env.verifierVerify s c.url = .ok d → (Catalog.fetch c env).1.catalog_data = some d))
    ∧ (∀ (c : Catalog) (env : NetEnv), c.verify_signatures = false →
      Catalog.verify c env = (c, .ok true)) := by
  refine ⟨?_, ?_, ?_⟩
  · intro c env s d h1 h2 h3
    unfold Catalog.fetch
    rw [h2]
    simp only [h1, if_true]
    rw [h3]
    cases ht : toolsLenOk d <;> simp [ht]
  · intro c env s h1 h2 h3
    constructor
    · intro e he
      unfold Catalog.fetch
      rw [h3]
      simp only [h1, Bool.false_eq_true, if_false, h2, if_true]
      rw [he]
    · intro d hd
      unfold Catalog.fetch
      rw [h3]
      simp only [h1, Bool.false_eq_true, if_false, h2, if_true]
      rw [hd]
      cases ht : toolsLenOk d <;> simp [ht]
  · intro c env h
    unfold Catalog.verify
    simp [h]

/-- C1 witness: both amended behaviors at concrete inputs — the `.json` URL
caches the plain document with verification enabled, and the disabled-mode
`verify` returns `True` on the failing-integrity document. -/
theorem C1_witness :
    (Catalog.fetch catC1 envC1).1.catalog_data = some docC1
    ∧ Catalog.verify catC1b envC1 = (catC1b, .ok true) :=
  ⟨C1_unsigned_acceptance.1 catC1 envC1 jsonBodyC1 docC1 rfl rfl rfl,
   C1_unsigned_acceptance.2.2 catC1b envC1 rfl⟩

/-! ## Claim C3 — Phase B content integrity -/

/-- Whether one (dict) tool record passes Phase B: records lacking a truthy
`spec_url` or `spec_hash` are skipped, the rest must pass the fresh digest
comparison. -/
def specIntegrityOk (env : NetEnv) (kvs : List (String × JVal)) : Bool :=
  !(((objFind? kvs "spec_url").getD .null).truthy && ((objFind? kvs "spec_hash").getD .null).truthy)
  || Catalog.verifyContentIntegrityM env ((objFind? kvs "spec_url").getD .null)
      ((objFind? kvs "spec_hash").getD .null)

/-- The Phase B loop over dict records computes the conjunction of the
per-record checks, short-circuiting at the first failure. -/
theorem phaseBLoop_map_obj (env : NetEnv) (l : List (List (String × JVal))) :
    Catalog.phaseBLoop env (l.map JVal.obj) = .ok (l.all (fun skvs => specIntegrityOk env skvs)) := by
  induction l with
  | nil => rfl
  | cons s rest ih =>
    simp only [List.map_cons, Catalog.phaseBLoop, Catalog.checkToolSpec, List.all_cons,
      specIntegrityOk]
    cases hc : ((objFind? s "spec_url").getD JVal.null).truthy
        && ((objFind? s "spec_hash").getD JVal.null).truthy with
    | false =>
      simp only [Bool.not_false, Bool.true_or, Bool.true_and, ih]
      simp only [specIntegrityOk]
      simp
    | true =>
      cases hv : Catalog.verifyContentIntegrityM env ((objFind? s "spec_url").getD JVal.null)
          ((objFind? s "spec_hash").getD JVal.null) with
      | false => simp
      | true =>
        simp only [Bool.not_true, Bool.false_or, Bool.true_and, ih]
        simp only [specIntegrityOk]
        simp

/-- A cached catalog document carrying one record whose recorded digest does
not match the referenced content. -/
def docC3 : JVal :=
  .obj [("tools", .arr
    [.obj [("name", .str "t"),
           ("spec_url", .str "https://example.com/a.json"),
           ("spec_hash", .str "deadbeef")]])]

/-- A verification-enabled catalog with `docC3` cached. -/
def catC3 : Catalog := ⟨"https://example.com/catalog", true, some docC3, none⟩

/-- A network environment serving empty bytes at the referenced spec URL. -/
def envC3 : NetEnv :=
  { httpGetText := fun _ => .error (.clientError "not found")
  , httpGetBytes := fun u =>
      if u == "https://example.com/a.json" then .ok [] else .error (.clientError "not found")
  , jsonLoads := fun _ => .error .jsonError
  , verifierVerify := fun _ _ => .error (.securityError "bad") }

/-- C3, as stated, is false: the referenced document is fetched successfully
(second conjunct) and its fresh digest mismatches the recorded one, yet
`verify` returns the plain boolean `False` — no `IntegrityError` (nor any
exception) is raised, and no record is named in an error value. -/
theorem C3_counterexample :
    Catalog.verify catC3 envC3 = (catC3, .ok false)
    ∧ envC3.httpGetBytes "https://example.com/a.json" = .ok [] :=
  ⟨rfl, rfl⟩

/-- C3 amended: with signature verification enabled and a truthy cached
document whose `tools` entry is a list of dict records, `verify` returns the
boolean conjunction of the per-record Phase B checks — `True` iff every
record carrying a truthy `spec_url` and `spec_hash` has a freshly fetched
digest equal to the recorded one (records lacking either field are skipped;
the loop stops at the first failure); failure is reported as `False`, not as
an exception. -/
theorem C3_integrity_boolean : ∀ (c : Catalog) (env : NetEnv) (kvs : List (String × JVal))
    (specsKvs : List (List (String × JVal))),
    c.verify_signatures = true →
    c.catalog_data = some (.obj kvs) →
    (JVal.obj kvs).truthy = true →
    objFind? kvs "tools" = some (.arr (specsKvs.map JVal.obj)) →
    Catalog.verify c env = (c, .ok (specsKvs.all (fun skvs => specIntegrityOk env skvs))) := by
  intro c env kvs specsKvs h1 h2 h3 h4
  unfold Catalog.verify
  simp only [Catalog.hasVerifier, h1, Bool.not_true, Bool.or_self, Bool.false_eq_true, if_false]
  simp only [h2, optTruthy, h3, Bool.not_true, Bool.false_eq_true, if_false]
  simp only [Catalog.verifyBody, pyIterElems, h4, Option.getD_some]
  rw [phaseBLoop_map_obj]

/-- A cached catalog document whose single record's digest matches the empty
content served at its spec URL. -/
def docC3w : JVal :=
  .obj [("tools", .arr
    [.obj [("spec_url", .str "https://example.com/a.json"),
           ("spec_hash", .str "e3b0c44298fc1c149afbf4c8996fb92427ae41e4649b934ca495991b7852b855")]])]

/-- A verification-enabled catalog with `docC3w` cached. -/
def catC3w : Catalog := ⟨"https://example.com/catalog", true, some docC3w, none⟩

/-- C3 witness: on the matching-digest catalog the amended theorem evaluates
to a `True` verification outcome. -/
theorem C3_witness : Catalog.verify catC3w envC3 = (catC3w, .ok true) :=
  C3_integrity_boolean catC3w envC3
    [("tools", .arr
      [.obj [("spec_url", .str "https://example.com/a.json"),
             ("spec_hash", .str "e3b0c44298fc1c149afbf4c8996fb92427ae41e4649b934ca495991b7852b855")]])]
    [[("spec_url", .str "https://example.com/a.json"),
      ("spec_hash", .str "e3b0c44298fc1c149afbf4c8996fb92427ae41e4649b934ca495991b7852b855")]]
    rfl rfl rfl rfl

/-! ## Claim C4 — invocation response envelope -/

/-- The client used in the envelope scenarios. -/
def clientC4 : MCPClient := MCPClient.init "https://tools.example.com"

/-- The tool invoked in the envelope scenarios. -/
def toolC4 : Tool :=
  ⟨.obj [("name", .str "t")], .str "t", .str "", .obj [], .arr [],
   .str "https://tools.example.com", .arr []⟩

/-- A transport answering the empty envelope (neither `result` nor
`error`). -/
def envC4none : McpEnv := ⟨fun _ _ => .ok (.obj []), 7⟩

/-- A transport answering an envelope carrying both `result` and `error`. -/
def envC4both : McpEnv :=
  ⟨fun _ _ => .ok (.obj [("result", .obj [("ok", .bool true)]),
                         ("error", .obj [("code", .num 5), ("message", .str "boom")])]), 7⟩

/-- C4, as stated, is false: an envelope with neither field returns the empty
dict (no `ProtocolViolationError` — no such class exists), and an envelope
with both fields raises the remote error (`MCPError`), the error taking
precedence. -/
theorem C4_counterexample :
    MCPClient.call_tool clientC4 toolC4 (.obj []) envC4none = (.ok (.obj []), 1)
    ∧ MCPClient.call_tool clientC4 toolC4 (.obj []) envC4both =
        (.error (.mcpError "Unexpected error: MCP Error 5: boom"), 1) :=
  ⟨rfl, rfl⟩

/-- C4 amended: for a dict response envelope, an `error` entry (a dict, even
alongside `result`) raises `MCPError` whose message carries the protocol code
and message (re-wrapped by the blanket handler as `Unexpected error: MCP
Error <code>: <message>`); with `error` absent the `result` value is
returned, defaulting to the empty dict when it too is absent; in both cases
exactly one POST is issued — the call is never retried. -/
theorem C4_envelope : ∀ (client : MCPClient) (tool : Tool) (params : JVal) (env : McpEnv)
    (kvs ekvs : List (String × JVal)),
    env.post (urljoinMcp client.endpoint) (mcpRequest tool.id params env.objId) = .ok (.obj kvs) →
    ((objFind? kvs "error" = some (.obj ekvs) →
      MCPClient.call_tool client tool params env =
        (.error (.mcpError ("Unexpected error: " ++
          ("MCP Error " ++ pyStrOf ((objFind? ekvs "code").getD (.str "unknown")) ++ ": " ++
           pyStrOf ((objFind? ekvs "message").getD (.str "Unknown error"))))), 1))
    ∧ (objFind? kvs "error" = none →
      MCPClient.call_tool client tool params env = (.ok ((objFind? kvs "result").getD (.obj [])), 1))) := by
  intro client tool params env kvs ekvs hpost
  constructor
  · intro herr
    unfold MCPClient.call_tool
    simp only [hpost, pyContainsStr, hasKey_eq_isSome, herr, Option.isSome_some, pySubscript,
      pyGet, mcpWrap, pyExnStr, if_true]
  · intro hnone
    unfold MCPClient.call_tool
    simp only [hpost, pyContainsStr, hasKey_eq_isSome, hnone, Option.isSome_none, pyGet,
      Bool.false_eq_true, if_false]

/-- A transport answering an error-only envelope. -/
def envC4err : McpEnv :=
  ⟨fun _ _ => .ok (.obj [("error", .obj [("code", .num 5), ("message", .str "boom")])]), 7⟩

/-- A transport answering a result-only envelope. -/
def envC4res : McpEnv := ⟨fun _ _ => .ok (.obj [("result", .str "fine")]), 7⟩

/-- C4 witness: the two amended branches at concrete envelopes — the remote
error surfaces as `MCPError` with its code and message, and a plain result is
returned unchanged, one POST each. -/
theorem C4_witness :
    MCPClient.call_tool clientC4 toolC4 (.obj []) envC4err =
      (.error (.mcpError "Unexpected error: MCP Error 5: boom"), 1)
    ∧ MCPClient.call_tool clientC4 toolC4 (.obj []) envC4res = (.ok (.str "fine"), 1) :=
  ⟨(C4_envelope clientC4 toolC4 (.obj []) envC4err
      [("error", .obj [("code", .num 5), ("message", .str "boom")])]
      [("code", .num 5), ("message", .str "boom")] rfl).1 rfl,
   (C4_envelope clientC4 toolC4 (.obj []) envC4res
      [("result", .str "fine")] [] rfl).2 rfl⟩

/-! ## Claim C2 — public-key resolution strategy chain -/

/-- A key environment in which the origin's trust document answers 200 but
contains no usable key, while the JWKS endpoint and the PEM decoder would
succeed. -/
def envC2 : KeyEnv :=
  { http := fun u =>
      if u == didWebUrl "https://example.com/catalog" then .resp 200 (.ok (.obj []))
      else if u == jwksUrl "https://example.com/catalog" then
        .resp 200 (.ok (.obj [("keys", .arr [.obj [("kid", .str "kid1")]])]))
      else .exn (.clientError "not found")
  , fromJwk := fun j => .ok (.fromJwk j)
  , loadPem := fun s => .ok (.fromPem s) }

/-- A verifier whose local trust store holds the requested key id. -/
def verC2 : CatalogVerifier := ⟨[("kid1", "PEM-KEY-1")]⟩

/-- C2, as stated, is false: the trust document fetch succeeds with 200 but
yields no usable key, and instead of falling through silently to the local
trust store — which holds `kid1` and whose PEM decode succeeds (second and
third conjuncts) — the whole chain aborts with `SecurityError`. -/
theorem C2_counterexample :
    CatalogVerifier.getPublicKey verC2 "https://example.com/catalog" (some "kid1") envC2 =
      .error (.securityError
        "Could not retrieve public key for verification: No suitable public key found in DID document")
    ∧ lookupTrusted verC2.trusted_keys "kid1" = some "PEM-KEY-1"
    ∧ CatalogVerifier.loadPublicKeyFromString envC2 "PEM-KEY-1" = .ok (.fromPem "PEM-KEY-1") :=
  ⟨rfl, rfl, rfl⟩

/-- C2 amended: the strategies run in order trust document → trust store →
JWKS, but fall-through happens only when the trust-document fetch completes
with a non-200 status: a 200 document without a usable key, or a fetch
exception, aborts the whole chain with `SecurityError` (the code's
`KeyResolutionError`).  On fall-through, a non-empty key id present in the
trust store wins before JWKS; otherwise the JWKS outcome decides, and every
failure — including all three strategies failing — surfaces as
`SecurityError`, never as a null key. -/
theorem C2_strategy_chain :
    (∀ (v : CatalogVerifier) (url : String) (kid : Option String) (env : KeyEnv)
       (doc : JVal) (k : PKey),
      env.http (didWebUrl url) = .resp 200 (.ok doc) →
      CatalogVerifier.extractFromDid env doc kid = .ok k →
      CatalogVerifier.getPublicKey v url kid env = .ok k)
    ∧ (∀ (v : CatalogVerifier) (url kid : String) (env : KeyEnv)
        (status : Nat) (body : Except PyExn JVal) (pem : String) (k : PKey),
      env.http (didWebUrl url) = .resp status body →
      status ≠ 200 →
      kid ≠ "" →
      lookupTrusted v.trusted_keys kid = some pem →
      env.loadPem pem = .ok k →
      CatalogVerifier.getPublicKey v url (some kid) env = .ok k)
    ∧ (∀ (v : CatalogVerifier) (url : String) (env : KeyEnv)
        (status : Nat) (body : Except PyExn JVal),
      env.http (didWebUrl url) = .resp status body →
      status ≠ 200 →
      (∀ k, CatalogVerifier.getKeyFromJwks env url none = .ok k →
        CatalogVerifier.getPublicKey v url none env = .ok k)
      ∧ (∀ e, CatalogVerifier.getKeyFromJwks env url none = .error e →
        CatalogVerifier.getPublicKey v url none env =
          .error (.securityError ("Could not retrieve public key for verification: " ++ pyExnStr e))))
    ∧ (∀ (v : CatalogVerifier) (url : String) (kid : Option String) (env : KeyEnv) (e : PyExn),
      env.http (didWebUrl url) = .exn e →
      CatalogVerifier.getPublicKey v url kid env =
        .error (.securityError ("Could not retrieve public key for verification: " ++ pyExnStr e)))
    ∧ (∀ (v : CatalogVerifier) (url : String) (kid : Option String) (env : KeyEnv) (e : PyExn),
      CatalogVerifier.getPublicKey v url kid env = .error e → ∃ m, e = .securityError m) := by
  refine ⟨?_, ?_, ?_, ?_, ?_⟩
  · intro v url kid env doc k h1 h2
    unfold CatalogVerifier.getPublicKey CatalogVerifier.getPublicKeyInner
    rw [h1]
    simp [h2, keyResolveWrap]
  · intro v url kid env status body pem k h1 h2 h3 h4 h5
    unfold CatalogVerifier.getPublicKey CatalogVerifier.getPublicKeyInner
    rw [h1]
    have hs : (status == 200) = false := beq_eq_false_iff_ne.mpr h2
    have hk : (kid != "") = true := bne_iff_ne.mpr h3
    simp only [hs, Bool.false_eq_true, if_false, hk, if_true, h4]
    unfold CatalogVerifier.loadPublicKeyFromString
    rw [h5]
    rfl
  · intro v url env status body h1 h2
    have hs : (status == 200) = false := beq_eq_false_iff_ne.mpr h2
    constructor
    · intro k hk
      unfold CatalogVerifier.getPublicKey CatalogVerifier.getPublicKeyInner
      rw [h1]
      simp only [hs, Bool.false_eq_true, if_false, hk]
      rfl
    · intro e he
      unfold CatalogVerifier.getPublicKey CatalogVerifier.getPublicKeyInner
      rw [h1]
      simp only [hs, Bool.false_eq_true, if_false, he]
      rfl
  · intro v url kid env e h
    unfold CatalogVerifier.getPublicKey CatalogVerifier.getPublicKeyInner
    rw [h]
    rfl
  · intro v url kid env e h
    unfold CatalogVerifier.getPublicKey at h
    cases hi : CatalogVerifier.getPublicKeyInner v url kid env with
    | ok k => rw [hi] at h; exact Except.noConfusion h
    | error e2 =>
      rw [hi] at h
      unfold keyResolveWrap at h
      injection h with h'
      exact ⟨_, h'.symm⟩

/-- A key environment whose trust-document fetch answers 404, forcing
fall-through. -/
def envC2b : KeyEnv :=
  { http := fun u =>
      if u == didWebUrl "https://example.com/catalog" then .resp 404 (.error .jsonError)
      else .exn (.clientError "not found")
  , fromJwk := fun j => .ok (.fromJwk j)
  , loadPem := fun s => .ok (.fromPem s) }

/-- C2 witness: on a non-200 trust document the chain falls through and the
trust store's key is returned. -/
theorem C2_witness :
    CatalogVerifier.getPublicKey verC2 "https://example.com/catalog" (some "kid1") envC2b =
      .ok (.fromPem "PEM-KEY-1") :=
  C2_strategy_chain.2.1 verC2 "https://example.com/catalog" "kid1" envC2b 404
    (.error .jsonError) "PEM-KEY-1" (.fromPem "PEM-KEY-1") rfl (by decide) (by decide) rfl rfl

/-! ## Claim C5 — signing mutates the caller's nested tool records -/

/-- The caller's document's single tool dict: a `spec_url` and no
`spec_hash`. -/
def heapC5 : List ToolDict := [[("name", .str "t"), ("spec_url", .str "https://example.com/spec.json")]]

/-- The caller's catalog document, referencing that tool dict. -/
def docC5 : CatalogDocRef := ⟨[("version", .str "1.0")], some [0]⟩

/-- A signing environment whose JWS encoding succeeds. -/
def signEnvC5 : SignEnv := ⟨fun _ _ _ => .ok "signed.jwt.token"⟩

/-- C5 is right and the code is wrong (`catalog.copy()` is shallow, so the
intended no-mutation contract is broken): before `sign_catalog`, the caller's
tool record has no `spec_hash`; the call succeeds, and afterwards the very
heap cell the caller's document references carries a freshly written
`spec_hash` — the digest did not stay confined to the produced artifact. -/
theorem C5_mutation_at_failing_input :
    hasKey (heapC5.getD 0 []) "spec_hash" = false
    ∧ hasKey (((CatalogSigner.sign_catalog none signEnvC5 heapC5 docC5).1.getD 0 [])) "spec_hash" = true
    ∧ (CatalogSigner.sign_catalog none signEnvC5 heapC5 docC5).2 = .ok "signed.jwt.token" :=
  ⟨rfl, rfl, rfl⟩
